import Mathlib

/-!
Verification of the authentication-and-authorization decision engine in
`pkg/controller/login.go`: credential validation, principal lookup,
multi-user disambiguation, subscription-status evaluation, and token-claims
construction.

The decision engine is embedded as a pure function. External collaborators
are modelled as parameters:
  * the credential hasher (`pkg/hash.HashPassword`) as a function argument
    `hashFn`, since the engine only applies it;
  * the persistent store as the list of `Login` rows it contains;
  * the billing provider (`repository.GetActiveSubscription`) as a map from
    account id to the account's active subscription, if any.
Timestamps are Unix seconds (`Int`), matching `time.Time.Unix()`.
Token signing is abstracted away: a token is represented by its claims
payload, since every property of interest concerns the claims.
-/

namespace Monetr

/-- Go's `strings.TrimSpace`: drop leading and trailing whitespace. The
character-wise model keeps every definition kernel-computable. -/
def TrimSpace (s : String) : String :=
  String.mk
    (((s.data.dropWhile Char.isWhitespace).reverse.dropWhile
        Char.isWhitespace).reverse)

/-- Go's `strings.ToLower`, modelled character-wise with the ASCII case
mapping. -/
def ToLower (s : String) : String :=
  String.mk (s.data.map Char.toLower)

/-- Stripe subscription status vocabulary recognized by the switch in
`loginEndpoint` (constants from the stripe-go library). -/
def SubscriptionStatusActive : String := "active"

/-- Stripe status `trialing`. -/
def SubscriptionStatusTrialing : String := "trialing"

/-- Stripe status `past_due`. -/
def SubscriptionStatusPastDue : String := "past_due"

/-- Stripe status `unpaid`. -/
def SubscriptionStatusUnpaid : String := "unpaid"

/-- Stripe status `canceled`. -/
def SubscriptionStatusCanceled : String := "canceled"

/-- Stripe status `incomplete`. -/
def SubscriptionStatusIncomplete : String := "incomplete"

/-- Stripe status `incomplete_expired`. -/
def SubscriptionStatusIncompleteExpired : String := "incomplete_expired"

/-- A user row linked to a login (`models.User` fields read by the engine). -/
structure User where
  userId : Nat
  accountId : Nat
deriving DecidableEq, Repr

/-- A login (principal) row with its joined users (`models.Login` fields read
by the engine: `LoginId`, `Email`, `PasswordHash`, `Users`). -/
structure Login where
  loginId : Nat
  email : String
  passwordHash : String
  users : List User
deriving DecidableEq, Repr

/-- A billing subscription record; the engine reads only its `Status`. -/
structure Subscription where
  status : String
deriving DecidableEq, Repr

/-- The configuration the engine reads: `configuration.Stripe.BillingEnabled`
and `configuration.APIDomainName`. -/
structure Config where
  billingEnabled : Bool
  apiDomainName : String
deriving DecidableEq, Repr

/-- The external world the engine consults: the credential store's rows and
the billing provider's per-account active subscription.
`subscriptions` is modelled from the spec: the billing provider client
(`repository.GetActiveSubscription`, not part of this package) exposes
`getActiveSubscription(accountId) -> Subscription|None`. -/
structure Env where
  store : List Login
  subscriptions : Nat → Option Subscription

/-- The JWT standard claims fields set by `generateToken`. -/
structure StandardClaims where
  audience : List String
  expiresAt : Int
  id : String
  issuedAt : Int
  issuer : String
  notBefore : Int
  subject : String
deriving DecidableEq, Repr

/-- The claims payload built by `generateToken` (`HarderClaims` in the
source): application ids plus the standard claims. -/
structure HarderClaims where
  loginId : Nat
  userId : Nat
  accountId : Nat
  subscriptionStatus : Bool
  standardClaims : StandardClaims
deriving DecidableEq, Repr

/-- A decoded login request after JSON parsing and captcha verification
(both external collaborators). -/
structure LoginRequest where
  email : String
  password : String
deriving DecidableEq, Repr

/-- The outcome handed back to the HTTP layer: either an error response with
a status code and message, or a JSON success body carrying the token,
an optional `nextUrl` hint, and an optional `users` list. -/
inductive LoginOutcome where
  | error (status : Nat) (message : String)
  | success (token : HarderClaims) (nextUrl : Option String)
      (users : Option (List User))
deriving DecidableEq, Repr

/-- The endpoint's observable behaviour: the outcome plus the operational
notifications it emitted (`sentry.CaptureMessage` calls). -/
structure LoginResult where
  outcome : LoginOutcome
  notifications : List String
deriving DecidableEq, Repr

/-- The `WHERE` clause of the credential query in `loginEndpoint`
(login.go line 73): both the email and the password hash must match. -/
def matchesLogin (email passwordHash : String) (l : Login) : Bool :=
  l.email == email && l.passwordHash == passwordHash

/-- The credential store lookup in `loginEndpoint` (login.go lines 69-75):
select the rows matching email and digest, with `Limit(1)`; no row is
`pg.ErrNoRows`, modelled as `none`. -/
def findLogin (store : List Login) (email passwordHash : String) :
    Option Login :=
  (store.filter (matchesLogin email passwordHash)).head?

/-- `validateLogin` (login.go lines 167-174): rejects a password shorter
than 8 bytes; the email is accepted unconditionally. Go's `len` counts
bytes, hence `utf8ByteSize`. -/
def validateLogin (email password : String) : Option String :=
  if password.utf8ByteSize < 8 then
    some "password must be at least 8 characters"
  else
    none

/-- `generateToken` (login.go lines 176-202): builds the claims payload.
`now` is the issuance instant in Unix seconds; `time.Now().Add(31*24*
time.Hour).Unix()` equals `now + 31*24*3600` because the offset is a whole
number of seconds. Signing (HMAC-SHA256) is abstracted: the token is its
claims. Note: the source's `HarderClaims` struct literal omits the
`SubscriptionStatus` field and the body never reads the
`subscriptionActive` parameter, so the field keeps Go's zero value `false`
in every token the program issues. -/
def generateToken (cfg : Config) (now : Int)
    (loginId userId accountId : Nat) (subscriptionActive : Bool) :
    HarderClaims :=
  { loginId := loginId
    userId := userId
    accountId := accountId
    subscriptionStatus := false
    standardClaims :=
      { audience := [cfg.apiDomainName]
        expiresAt := now + 31 * 24 * 3600
        id := ""
        issuedAt := now
        issuer := cfg.apiDomainName
        notBefore := now
        subject := "monetr" } }

/-- The status switch in `loginEndpoint` (login.go lines 114-133): no
subscription record means inactive; `active`/`trialing` are active;
`past_due`/`unpaid`/`canceled`/`incomplete`/`incomplete_expired` are
inactive; any other status string is an error carrying that status. -/
def subscriptionIsActive (sub : Option Subscription) : Except String Bool :=
  match sub with
  | none => .ok false
  | some subscription =>
    if subscription.status == SubscriptionStatusActive
        || subscription.status == SubscriptionStatusTrialing then
      .ok true
    else if subscription.status == SubscriptionStatusPastDue
        || subscription.status == SubscriptionStatusUnpaid
        || subscription.status == SubscriptionStatusCanceled
        || subscription.status == SubscriptionStatusIncomplete
        || subscription.status == SubscriptionStatusIncompleteExpired then
      .ok false
    else
      .error subscription.status

/-- The decision engine, `loginEndpoint` (login.go lines 40-165), starting
after JSON decoding and captcha verification (external per the spec):
normalize the credential, validate it, hash it, look the principal up,
branch on the number of linked users, evaluate billing when enabled, and
issue the token. -/
def loginEndpoint (hashFn : String → String → String) (cfg : Config)
    (env : Env) (now : Int) (req : LoginRequest) : LoginResult :=
  let email := ToLower (TrimSpace req.email)
  let password := TrimSpace req.password
  if (validateLogin email password).isSome then
    ⟨.error 400 "login is not valid", []⟩
  else
    let hashedPassword := hashFn email password
    match findLogin env.store email hashedPassword with
    | none => ⟨.error 403 "invalid email and password", []⟩
    | some login =>
      match login.users with
      | [] => ⟨.error 403 "user has no accounts", []⟩
      | [user] =>
        if !cfg.billingEnabled then
          ⟨.success
            (generateToken cfg now login.loginId user.userId user.accountId
              true) none none, []⟩
        else
          match subscriptionIsActive (env.subscriptions user.accountId) with
          | .error status =>
            ⟨.error 501 "invalid subscription status, create a github issue",
              ["invalid subscription status: " ++ status]⟩
          | .ok subscriptionActive =>
            ⟨.success
              (generateToken cfg now login.loginId user.userId user.accountId
                subscriptionActive)
              (if subscriptionActive then none else some "/account/subscribe")
              none, []⟩
      | _ :: _ :: _ =>
        ⟨.success (generateToken cfg now login.loginId 0 0 true) none
          (some login.users), []⟩

/-- A concrete hasher standing in for `hash.HashPassword` in witness
scenarios: any function of identifier and secret will do. -/
def wHash (email secret : String) : String := email ++ "|" ++ secret

/-- Witness scenario user. -/
def wUserA : User := { userId := 7, accountId := 21 }

/-- Second witness scenario user, for the multi-user case. -/
def wUserB : User := { userId := 8, accountId := 22 }

/-- Witness configuration with billing enabled. -/
def wCfgOn : Config := { billingEnabled := true, apiDomainName := "api.test" }

/-- Witness configuration with billing disabled. -/
def wCfgOff : Config :=
  { billingEnabled := false, apiDomainName := "api.test" }

/-- Witness login request with a well-formed credential. -/
def wReq : LoginRequest := { email := "a@b.c", password := "password1" }

/-- Witness store row with exactly one linked user, digest matching
`wHash` applied to `wReq`'s normalized credential. -/
def wLoginOne : Login :=
  { loginId := 1, email := "a@b.c", passwordHash := "a@b.c|password1",
    users := [wUserA] }

/-- Witness store row with two linked users. -/
def wLoginTwo : Login :=
  { loginId := 2, email := "a@b.c", passwordHash := "a@b.c|password1",
    users := [wUserA, wUserB] }

/-- Witness store row with zero linked users. -/
def wLoginZero : Login :=
  { loginId := 3, email := "a@b.c", passwordHash := "a@b.c|password1",
    users := [] }

/-- Helper: validation succeeds exactly when the trimmed password is at
least 8 bytes. -/
theorem validateLogin_ok (email password : String)
    (h : 8 ≤ password.utf8ByteSize) : validateLogin email password = none := by
  simp [validateLogin, Nat.not_lt.mpr h]

/-- Helper: when no store row matches both the email and the digest, the
lookup comes back empty. -/
theorem findLogin_eq_none (store : List Login) (email digest : String)
    (h : ∀ l ∈ store, matchesLogin email digest l = false) :
    findLogin store email digest = none := by
  have hf : store.filter (matchesLogin email digest) = [] :=
    List.filter_eq_nil_iff.mpr (by intro a ha; simp [h a ha])
  simp [findLogin, hf]

/-- Helper: a matching row at the head of the store is the row returned. -/
theorem findLogin_cons_of_matches (l : Login) (rest : List Login)
    (email digest : String) (h : matchesLogin email digest l = true) :
    findLogin (l :: rest) email digest = some l := by
  simp [findLogin, List.filter_cons, h]

/-- Helper: the single-user billing-enabled path, when the status mapping
resolves, issues a token flagged with the resolved status and adds the
subscribe redirect exactly when the subscription is not active. -/
theorem loginEndpoint_single_user_billing_ok
    (hashFn : String → String → String) (cfg : Config) (env : Env)
    (now : Int) (req : LoginRequest) (login : Login) (user : User)
    (active : Bool)
    (hval : 8 ≤ (TrimSpace req.password).utf8ByteSize)
    (hfind : findLogin env.store (ToLower (TrimSpace req.email))
        (hashFn (ToLower (TrimSpace req.email)) (TrimSpace req.password)) =
        some login)
    (husers : login.users = [user])
    (hbill : cfg.billingEnabled = true)
    (hsia : subscriptionIsActive (env.subscriptions user.accountId) =
        .ok active) :
    loginEndpoint hashFn cfg env now req =
      ⟨.success
        (generateToken cfg now login.loginId user.userId user.accountId
          active)
        (if active then none else some "/account/subscribe") none, []⟩ := by
  simp [loginEndpoint, validateLogin_ok _ _ hval, hfind, husers, hbill, hsia]

/-- Helper: the single-user billing-enabled path, when the status mapping
fails, returns the 501 error and emits the operational notification. -/
theorem loginEndpoint_single_user_billing_error
    (hashFn : String → String → String) (cfg : Config) (env : Env)
    (now : Int) (req : LoginRequest) (login : Login) (user : User)
    (status : String)
    (hval : 8 ≤ (TrimSpace req.password).utf8ByteSize)
    (hfind : findLogin env.store (ToLower (TrimSpace req.email))
        (hashFn (ToLower (TrimSpace req.email)) (TrimSpace req.password)) =
        some login)
    (husers : login.users = [user])
    (hbill : cfg.billingEnabled = true)
    (hsia : subscriptionIsActive (env.subscriptions user.accountId) =
        .error status) :
    loginEndpoint hashFn cfg env now req =
      ⟨.error 501 "invalid subscription status, create a github issue",
        ["invalid subscription status: " ++ status]⟩ := by
  simp [loginEndpoint, validateLogin_ok _ _ hval, hfind, husers, hbill, hsia]

/-- C1 (code bug): at a concrete single-user login with billing enabled,
the code maps an Active subscription to the success outcome with no
redirect, an inactive status to the success outcome with the subscribe
redirect, and a missing subscription record to exactly the inactive
result — but the issued token's subStatus claim is `false` even in the
Active branch, because `generateToken` never writes the flag: the Active
and inactive branches issue identical tokens, differing only in the
redirect hint, contradicting the claimed authorized=true token. -/
theorem C1_code_behavior :
    loginEndpoint wHash wCfgOn ⟨[wLoginOne], fun _ => some ⟨"active"⟩⟩ 0
      wReq =
      ⟨.success (generateToken wCfgOn 0 1 7 21 true) none none, []⟩
    ∧ (generateToken wCfgOn 0 1 7 21 true).subscriptionStatus = false
    ∧ loginEndpoint wHash wCfgOn ⟨[wLoginOne], fun _ => some ⟨"past_due"⟩⟩
        0 wReq =
      ⟨.success (generateToken wCfgOn 0 1 7 21 false)
        (some "/account/subscribe") none, []⟩
    ∧ loginEndpoint wHash wCfgOn ⟨[wLoginOne], fun _ => none⟩ 0 wReq =
      loginEndpoint wHash wCfgOn ⟨[wLoginOne], fun _ => some ⟨"past_due"⟩⟩
        0 wReq
    ∧ generateToken wCfgOn 0 1 7 21 true =
        generateToken wCfgOn 0 1 7 21 false :=
  ⟨by decide, rfl, by decide, by decide, rfl⟩

/-- C2: single linked user, billing enabled, subscription status outside the
recognized vocabulary: login aborts with the distinct 501
unsupported-status error, issues no token, and emits the operational
notification naming the status. -/
theorem C2_unsupported_status_aborts
    (hashFn : String → String → String) (cfg : Config) (env : Env)
    (now : Int) (req : LoginRequest) (login : Login) (user : User)
    (sub : Subscription)
    (hval : 8 ≤ (TrimSpace req.password).utf8ByteSize)
    (hfind : findLogin env.store (ToLower (TrimSpace req.email))
        (hashFn (ToLower (TrimSpace req.email)) (TrimSpace req.password)) =
        some login)
    (husers : login.users = [user])
    (hbill : cfg.billingEnabled = true)
    (hsub : env.subscriptions user.accountId = some sub)
    (hunrec : sub.status ∉ [SubscriptionStatusActive,
        SubscriptionStatusTrialing, SubscriptionStatusPastDue,
        SubscriptionStatusUnpaid, SubscriptionStatusCanceled,
        SubscriptionStatusIncomplete, SubscriptionStatusIncompleteExpired]) :
    loginEndpoint hashFn cfg env now req =
      ⟨.error 501 "invalid subscription status, create a github issue",
        ["invalid subscription status: " ++ sub.status]⟩
    ∧ ∀ (token : HarderClaims) (nextUrl : Option String)
        (userList : Option (List User)),
        (loginEndpoint hashFn cfg env now req).outcome ≠
          LoginOutcome.success token nextUrl userList := by
  obtain ⟨h1, h2, h3, h4, h5, h6, h7⟩ :
      sub.status ≠ SubscriptionStatusActive ∧
      sub.status ≠ SubscriptionStatusTrialing ∧
      sub.status ≠ SubscriptionStatusPastDue ∧
      sub.status ≠ SubscriptionStatusUnpaid ∧
      sub.status ≠ SubscriptionStatusCanceled ∧
      sub.status ≠ SubscriptionStatusIncomplete ∧
      sub.status ≠ SubscriptionStatusIncompleteExpired := by
    simpa [not_or] using hunrec
  have hsia : subscriptionIsActive (env.subscriptions user.accountId) =
      .error sub.status := by
    simp [subscriptionIsActive, hsub, h1, h2, h3, h4, h5, h6, h7]
  have hmain := loginEndpoint_single_user_billing_error hashFn cfg env now
    req login user sub.status hval hfind husers hbill hsia
  refine ⟨hmain, ?_⟩
  intro token nextUrl userList
  rw [hmain]
  simp

/-- Witness for C2 at a concrete subscription status "paused", which the
switch does not recognize. -/
theorem C2_witness :
    loginEndpoint wHash wCfgOn ⟨[wLoginOne], fun _ => some ⟨"paused"⟩⟩ 0
      wReq =
      ⟨.error 501 "invalid subscription status, create a github issue",
        ["invalid subscription status: paused"]⟩ :=
  (C2_unsupported_status_aborts wHash wCfgOn
    ⟨[wLoginOne], fun _ => some ⟨"paused"⟩⟩ 0 wReq wLoginOne wUserA
    ⟨"paused"⟩ (by decide) (by decide) rfl rfl rfl (by decide)).1

/-- C3: an identifier absent from the store and an existing identifier with
a wrong secret both produce the exact same failure: a 403 with the message
"invalid email and password" and no notification, so the two cases are
indistinguishable to the caller. -/
theorem C3_indistinguishable_failures
    (hashFn : String → String → String) (cfg : Config) (env : Env)
    (now : Int) (req1 req2 : LoginRequest)
    (hv1 : 8 ≤ (TrimSpace req1.password).utf8ByteSize)
    (hv2 : 8 ≤ (TrimSpace req2.password).utf8ByteSize)
    (hunknown : ∀ l ∈ env.store, l.email ≠ ToLower (TrimSpace req1.email))
    (hexists : ∃ l ∈ env.store, l.email = ToLower (TrimSpace req2.email))
    (hwrong : ∀ l ∈ env.store, l.email = ToLower (TrimSpace req2.email) →
        l.passwordHash ≠
          hashFn (ToLower (TrimSpace req2.email)) (TrimSpace req2.password)) :
    loginEndpoint hashFn cfg env now req1 =
      ⟨.error 403 "invalid email and password", []⟩
    ∧ loginEndpoint hashFn cfg env now req2 =
      ⟨.error 403 "invalid email and password", []⟩
    ∧ loginEndpoint hashFn cfg env now req1 =
      loginEndpoint hashFn cfg env now req2 := by
  have hf1 : findLogin env.store (ToLower (TrimSpace req1.email))
      (hashFn (ToLower (TrimSpace req1.email)) (TrimSpace req1.password)) =
      none := by
    apply findLogin_eq_none
    intro l hl
    simp [matchesLogin, hunknown l hl]
  have hf2 : findLogin env.store (ToLower (TrimSpace req2.email))
      (hashFn (ToLower (TrimSpace req2.email)) (TrimSpace req2.password)) =
      none := by
    apply findLogin_eq_none
    intro l hl
    by_cases he : l.email = ToLower (TrimSpace req2.email)
    · simp [matchesLogin, he, hwrong l hl he]
    · simp [matchesLogin, he]
  have hr1 : loginEndpoint hashFn cfg env now req1 =
      ⟨.error 403 "invalid email and password", []⟩ := by
    simp [loginEndpoint, validateLogin_ok _ _ hv1, hf1]
  have hr2 : loginEndpoint hashFn cfg env now req2 =
      ⟨.error 403 "invalid email and password", []⟩ := by
    simp [loginEndpoint, validateLogin_ok _ _ hv2, hf2]
  exact ⟨hr1, hr2, hr1.trans hr2.symm⟩

/-- Witness for C3: an unknown email versus the stored email with a wrong
password give equal results on a concrete store. -/
theorem C3_witness :
    loginEndpoint wHash wCfgOn ⟨[wLoginOne], fun _ => none⟩ 0
      ⟨"x@y.z", "password1"⟩ =
    loginEndpoint wHash wCfgOn ⟨[wLoginOne], fun _ => none⟩ 0
      ⟨"a@b.c", "password2"⟩ :=
  (C3_indistinguishable_failures wHash wCfgOn ⟨[wLoginOne], fun _ => none⟩ 0
    ⟨"x@y.z", "password1"⟩ ⟨"a@b.c", "password2"⟩ (by decide) (by decide)
    (by decide) (by decide) (by decide)).2.2

/-- C4 (code bug): at a concrete login with two linked users and a correct
credential, the code returns the disambiguation outcome for every possible
billing state — token with userId 0 and accountId 0, the full two-user
list attached — but the token's subStatus claim is `false`, not `true` as
claimed: `generateToken` drops the `true` flag the engine passes. -/
theorem C4_code_behavior :
    (∀ subs : Nat → Option Subscription,
      loginEndpoint wHash wCfgOn ⟨[wLoginTwo], subs⟩ 0 wReq =
        ⟨.success (generateToken wCfgOn 0 2 0 0 true) none
          (some [wUserA, wUserB]), []⟩)
    ∧ (generateToken wCfgOn 0 2 0 0 true).userId = 0
    ∧ (generateToken wCfgOn 0 2 0 0 true).accountId = 0
    ∧ (generateToken wCfgOn 0 2 0 0 true).subscriptionStatus = false := by
  have hv : validateLogin (ToLower (TrimSpace wReq.email))
      (TrimSpace wReq.password) = none := by decide
  have hf : findLogin [wLoginTwo] (ToLower (TrimSpace wReq.email))
      (wHash (ToLower (TrimSpace wReq.email)) (TrimSpace wReq.password)) =
      some wLoginTwo := by decide
  refine ⟨?_, rfl, rfl, rfl⟩
  intro subs
  simp [loginEndpoint, hv, hf,
    show wLoginTwo.users = wUserA :: wUserB :: [] from rfl,
    show wLoginTwo.loginId = 2 from rfl]

/-- C7 (code bug): at a concrete single-user login with billing disabled,
the code issues the token with the sole user's ids for every possible
billing state, never consulting the resolver — but the token's subStatus
claim is `false`, not `true` as claimed: `generateToken` drops the `true`
flag the engine passes unconditionally on this path. -/
theorem C7_code_behavior :
    (∀ subs : Nat → Option Subscription,
      loginEndpoint wHash wCfgOff ⟨[wLoginOne], subs⟩ 0 wReq =
        ⟨.success (generateToken wCfgOff 0 1 7 21 true) none none, []⟩)
    ∧ (generateToken wCfgOff 0 1 7 21 true).userId = 7
    ∧ (generateToken wCfgOff 0 1 7 21 true).accountId = 21
    ∧ (generateToken wCfgOff 0 1 7 21 true).subscriptionStatus = false := by
  have hv : validateLogin (ToLower (TrimSpace wReq.email))
      (TrimSpace wReq.password) = none := by decide
  have hf : findLogin [wLoginOne] (ToLower (TrimSpace wReq.email))
      (wHash (ToLower (TrimSpace wReq.email)) (TrimSpace wReq.password)) =
      some wLoginOne := by decide
  refine ⟨?_, rfl, rfl, rfl⟩
  intro subs
  simp [loginEndpoint, hv, hf,
    show wLoginOne.users = wUserA :: ([] : List User) from rfl,
    show wLoginOne.loginId = 1 from rfl,
    show wCfgOff.billingEnabled = false from rfl,
    show wUserA.userId = 7 from rfl,
    show wUserA.accountId = 21 from rfl]

/-- C9: the credential query is limited to one row: with two store rows
matching the same email and digest, the lookup returns the first and the
whole login behaves exactly as if only that first row existed. -/
theorem C9_limit_one
    (hashFn : String → String → String) (cfg : Config)
    (subs : Nat → Option Subscription) (now : Int) (req : LoginRequest)
    (l1 l2 : Login) (rest : List Login)
    (h1 : matchesLogin (ToLower (TrimSpace req.email))
        (hashFn (ToLower (TrimSpace req.email)) (TrimSpace req.password))
        l1 = true)
    (h2 : matchesLogin (ToLower (TrimSpace req.email))
        (hashFn (ToLower (TrimSpace req.email)) (TrimSpace req.password))
        l2 = true) :
    findLogin (l1 :: l2 :: rest) (ToLower (TrimSpace req.email))
      (hashFn (ToLower (TrimSpace req.email)) (TrimSpace req.password)) =
      some l1
    ∧ loginEndpoint hashFn cfg ⟨l1 :: l2 :: rest, subs⟩ now req =
        loginEndpoint hashFn cfg ⟨[l1], subs⟩ now req := by
  have hf := findLogin_cons_of_matches l1 (l2 :: rest) _ _ h1
  have hf2 := findLogin_cons_of_matches l1 [] _ _ h1
  refine ⟨hf, ?_⟩
  simp only [loginEndpoint, hf, hf2]

/-- Witness for C9 at a concrete store holding two rows with identical
email and digest. -/
theorem C9_witness :
    loginEndpoint wHash wCfgOn
      ⟨[wLoginOne, wLoginTwo], fun _ => some ⟨"active"⟩⟩ 0 wReq =
    loginEndpoint wHash wCfgOn ⟨[wLoginOne], fun _ => some ⟨"active"⟩⟩ 0
      wReq :=
  (C9_limit_one wHash wCfgOn (fun _ => some ⟨"active"⟩) 0 wReq wLoginOne
    wLoginTwo [] (by decide) (by decide)).2

/-- C10: validation never inspects the identifier, so an empty identifier
with an 8-byte-or-longer trimmed secret reaches the store lookup and, when
nothing matches, fails as invalid credentials rather than invalid input. -/
theorem C10_validation_ignores_identifier
    (hashFn : String → String → String) (cfg : Config) (env : Env)
    (now : Int) (password : String)
    (hlen : 8 ≤ (TrimSpace password).utf8ByteSize)
    (hnone : ∀ l ∈ env.store,
        matchesLogin "" (hashFn "" (TrimSpace password)) l = false) :
    (∀ email1 email2 pw : String,
      validateLogin email1 pw = validateLogin email2 pw)
    ∧ loginEndpoint hashFn cfg env now ⟨"", password⟩ =
        ⟨.error 403 "invalid email and password", []⟩ := by
  constructor
  · intro email1 email2 pw
    rfl
  · have hemp : ToLower (TrimSpace "") = "" := rfl
    have hf : findLogin env.store (ToLower (TrimSpace ""))
        (hashFn (ToLower (TrimSpace "")) (TrimSpace password)) = none := by
      rw [hemp]
      exact findLogin_eq_none _ _ _ hnone
    simp [loginEndpoint, validateLogin_ok _ _ hlen, hf]

/-- Witness for C10: the empty identifier with a long secret on a concrete
store yields the invalid-credentials failure. -/
theorem C10_witness :
    loginEndpoint wHash wCfgOn ⟨[wLoginOne], fun _ => none⟩ 0
      ⟨"", "password1"⟩ =
      ⟨.error 403 "invalid email and password", []⟩ :=
  (C10_validation_ignores_identifier wHash wCfgOn
    ⟨[wLoginOne], fun _ => none⟩ 0 "password1" (by decide) (by decide)).2

/-- C5 (code bug): `generateToken` does set issuedAt = notBefore = the
issuance time, expiresAt exactly 31×24 hours (in seconds) later, audience
and issuer to the configured API domain, subject to the fixed constant
"monetr", and copies the three ids — but the authorized flag is NOT
carried: the source's `HarderClaims` literal omits `SubscriptionStatus`
and never reads the `subscriptionActive` parameter, so the claim field is
always `false` and the token is independent of the flag. -/
theorem C5_token_fields (cfg : Config) (now : Int)
    (loginId userId accountId : Nat) (subscriptionActive : Bool) :
    (generateToken cfg now loginId userId accountId
        subscriptionActive).standardClaims.issuedAt = now
    ∧ (generateToken cfg now loginId userId accountId
        subscriptionActive).standardClaims.notBefore = now
    ∧ (generateToken cfg now loginId userId accountId
        subscriptionActive).standardClaims.expiresAt = now + 31 * 24 * 60 * 60
    ∧ (generateToken cfg now loginId userId accountId
        subscriptionActive).standardClaims.audience = [cfg.apiDomainName]
    ∧ (generateToken cfg now loginId userId accountId
        subscriptionActive).standardClaims.issuer = cfg.apiDomainName
    ∧ (generateToken cfg now loginId userId accountId
        subscriptionActive).standardClaims.subject = "monetr"
    ∧ (generateToken cfg now loginId userId accountId
        subscriptionActive).loginId = loginId
    ∧ (generateToken cfg now loginId userId accountId
        subscriptionActive).userId = userId
    ∧ (generateToken cfg now loginId userId accountId
        subscriptionActive).accountId = accountId
    ∧ (generateToken cfg now loginId userId accountId
        subscriptionActive).subscriptionStatus = false
    ∧ generateToken cfg now loginId userId accountId subscriptionActive =
        generateToken cfg now loginId userId accountId true := by
  refine ⟨rfl, rfl, ?_, rfl, rfl, rfl, rfl, rfl, rfl, rfl, rfl⟩
  show now + 31 * 24 * 3600 = now + 31 * 24 * 60 * 60
  norm_num

/-- C6: a secret whose trimmed length is under 8 bytes is rejected as
invalid input using only the normalized credential, and the result does not
depend on the hasher or on the store: the lookup is unreachable. -/
theorem C6_short_secret_rejected (hashFn : String → String → String)
    (cfg : Config) (env : Env) (now : Int) (req : LoginRequest)
    (h : (TrimSpace req.password).utf8ByteSize < 8) :
    loginEndpoint hashFn cfg env now req =
      ⟨.error 400 "login is not valid", []⟩
    ∧ ∀ (hashFn2 : String → String → String) (env2 : Env),
        loginEndpoint hashFn2 cfg env2 now req =
          loginEndpoint hashFn cfg env now req := by
  have hmain : ∀ (hf : String → String → String) (e : Env),
      loginEndpoint hf cfg e now req =
        ⟨.error 400 "login is not valid", []⟩ := by
    intro hf e
    simp [loginEndpoint, validateLogin, h]
  exact ⟨hmain hashFn env,
    fun hf2 e2 => (hmain hf2 e2).trans (hmain hashFn env).symm⟩

/-- Witness for C6 at a concrete request whose trimmed secret has 5 bytes. -/
theorem C6_witness :
    loginEndpoint wHash wCfgOn ⟨[wLoginOne], fun _ => none⟩ 0
      ⟨"a@b.c", "short"⟩ = ⟨.error 400 "login is not valid", []⟩ :=
  (C6_short_secret_rejected wHash wCfgOn ⟨[wLoginOne], fun _ => none⟩ 0
    ⟨"a@b.c", "short"⟩ (by decide)).1

/-- C8: a principal found by credential match but having zero linked users
fails with the distinct "user has no accounts" outcome, not the
"invalid email and password" outcome of the not-found case. -/
theorem C8_zero_users_distinct_failure (hashFn : String → String → String)
    (cfg : Config) (env : Env) (now : Int) (req : LoginRequest)
    (login : Login)
    (hval : 8 ≤ (TrimSpace req.password).utf8ByteSize)
    (hfind : findLogin env.store (ToLower (TrimSpace req.email))
        (hashFn (ToLower (TrimSpace req.email)) (TrimSpace req.password)) =
        some login)
    (husers : login.users = []) :
    loginEndpoint hashFn cfg env now req =
      ⟨.error 403 "user has no accounts", []⟩
    ∧ loginEndpoint hashFn cfg env now req ≠
      ⟨.error 403 "invalid email and password", []⟩ := by
  have h1 : loginEndpoint hashFn cfg env now req =
      ⟨.error 403 "user has no accounts", []⟩ := by
    simp [loginEndpoint, validateLogin_ok _ _ hval, hfind, husers]
  exact ⟨h1, by rw [h1]; decide⟩

/-- Witness for C8 at a concrete store whose only row has no users. -/
theorem C8_witness :
    loginEndpoint wHash wCfgOn ⟨[wLoginZero], fun _ => none⟩ 0 wReq =
      ⟨.error 403 "user has no accounts", []⟩ :=
  (C8_zero_users_distinct_failure wHash wCfgOn
    ⟨[wLoginZero], fun _ => none⟩ 0 wReq wLoginZero (by decide) (by decide)
    rfl).1

end Monetr
